import Mathlib

/-!
Verification development for the `inga_quant` gate / model / watchlist
pipeline (`src/inga_quant/pipeline/{model,gates,watchlist}.py`).

Shallow embedding conventions:
* pandas/numpy floating-point values are modelled as `Rat`; a missing value
  (`NaN` / `None`) is `Option.none`, and NaN-propagating arithmetic is made
  explicit through `Option`-valued operations.
* `numpy.sqrt` is modelled by `ratSqrt`, which is exact on perfect-square
  rationals (the only places a claim ever evaluates it).
* The sklearn regressor returned by `_make_model` and fitted by `model.fit`
  is external library code; it is modelled at its interface as a function
  `fitModel : matrix -> targets -> LinModel` supplied as a parameter, a
  fitted linear model being coefficient vector + intercept whose `predict`
  is the affine map (this is exactly the interface `Ridge`/`ElasticNet`
  expose).  Likewise the seeded `numpy` generator draw in the ticker-split
  CV gate is a parameter `choice`.
* `DataFrame`s are a `Frame`: a list of feature-column names plus rows
  carrying per-column optional rationals, an `as_of` date (an integer
  ordinal), a ticker, and the dedicated columns the pipeline reads
  (`forward_return_5d` target, `market_regime`, `name`).
-/

set_option allowUnsafeReducibility true
attribute [semireducible] Rat.add Rat.mul Rat.inv Rat.sub Rat.ofScientific

namespace IngaQuant

/-- Integer square root (largest `k` with `k * k ≤ n`), by a structural
fold so that concrete witnesses reduce definitionally; agrees with
`Nat.sqrt`. -/
def natSqrt (n : Nat) : Nat :=
  (List.range (n + 2)).foldl (fun acc k => if k * k ≤ n then k else acc) 0

/-- `numpy.sqrt` modelled over `Rat`: exact whenever numerator and
denominator are perfect squares (every use evaluated by a claim is of this
form); always nonnegative, zero iff the input is `<= 0`, positive on
positive input. -/
def ratSqrt (q : Rat) : Rat :=
  if q ≤ 0 then 0 else (natSqrt q.num.toNat : Rat) / (natSqrt q.den : Rat)

/-- First-occurrence deduplication: Python's `dict.fromkeys` /
`pandas.unique` order. -/
def uniqueFirst {α : Type} [DecidableEq α] (l : List α) : List α :=
  l.foldl (fun acc x => if x ∈ acc then acc else acc ++ [x]) []

/-- Mean of the non-null values of a column; `none` when every value is
null (pandas `Series.mean` returns `NaN` on an all-NaN column). -/
def meanOpt (xs : List (Option Rat)) : Option Rat :=
  let vs := xs.filterMap id
  if vs.isEmpty then none else some (vs.sum / (vs.length : Rat))

/-- Mean of a list of rationals (`0` on the empty list, which no caller
reaches). -/
def meanRat (xs : List Rat) : Rat :=
  if xs.isEmpty then 0 else xs.sum / (xs.length : Rat)

/-- Insertion into a descending-sorted list (used by `sortDescBy`). -/
def insertDescBy {α : Type} (key : α → Rat) (x : α) : List α → List α
  | [] => [x]
  | y :: ys => if key x ≥ key y then x :: y :: ys else y :: insertDescBy key x ys

/-- Sort by a rational key, descending (`pandas.sort_values(ascending=False)`;
tie order among equal keys is not specified by pandas' default quicksort, we
fix the stable order). -/
def sortDescBy {α : Type} (key : α → Rat) : List α → List α
  | [] => []
  | x :: xs => insertDescBy key x (sortDescBy key xs)

/-- Insertion into an ascending-sorted list (used by `sortAsc`). -/
def insertAsc (x : Int) : List Int → List Int
  | [] => [x]
  | y :: ys => if x ≤ y then x :: y :: ys else y :: insertAsc x ys

/-- Ascending sort of integers (Python `sorted`). -/
def sortAsc : List Int → List Int
  | [] => []
  | x :: xs => insertAsc x (sortAsc xs)

/-- Ascending insertion for rationals. -/
def insertAscQ (x : Rat) : List Rat → List Rat
  | [] => [x]
  | y :: ys => if x ≤ y then x :: y :: ys else y :: insertAscQ x ys

/-- Ascending sort of rationals (`numpy.sort` within `median`/`quantile`). -/
def sortAscQ : List Rat → List Rat
  | [] => []
  | x :: xs => insertAscQ x (sortAscQ xs)

/-- `numpy.median`: middle element of the sorted list, or the mean of the
two middle elements for even length; `0` on the empty list (unreached: the
source guards with `if ics else 0.0`). -/
def median (xs : List Rat) : Rat :=
  let s := sortAscQ xs
  let n := s.length
  if n = 0 then 0
  else if n % 2 = 1 then s.getD (n / 2) 0
  else (s.getD (n / 2 - 1) 0 + s.getD (n / 2) 0) / 2

/-- `pandas.Series.quantile(q)` with linear interpolation over the non-null
sorted values. -/
def quantileQ (xs : List Rat) (q : Rat) : Rat :=
  let s := sortAscQ xs
  let n := s.length
  if n = 0 then 0
  else
    let pos : Rat := q * ((n : Rat) - 1)
    let lo : Nat := pos.floor.toNat
    let frac : Rat := pos - (lo : Rat)
    if lo + 1 < n then s.getD lo 0 + frac * (s.getD (lo + 1) 0 - s.getD lo 0)
    else s.getD (n - 1) 0

/-- Average ranks (`scipy.stats.rankdata`, method `average`, as used by
`spearmanr`): rank of `x` is (#strictly smaller) + (#equal + 1)/2, with
ranks based at 1. -/
def avgRanks (xs : List Rat) : List Rat :=
  xs.map (fun x =>
    ((xs.filter (fun y => y < x)).length : Rat)
      + (((xs.filter (fun y => y = x)).length : Rat) + 1) / 2)

/-- Pearson correlation core: `none` models the `NaN` scipy/pandas return
on zero variance of either argument. -/
def pearsonCore (xs ys : List Rat) : Option Rat :=
  let n := xs.length
  if n = 0 then none
  else
    let mx := meanRat xs
    let my := meanRat ys
    let dx := xs.map (fun x => x - mx)
    let dy := ys.map (fun y => y - my)
    let sxx := (dx.map (fun d => d * d)).sum
    let syy := (dy.map (fun d => d * d)).sum
    let sxy := ((dx.zip dy).map (fun p => p.1 * p.2)).sum
    if sxx = 0 ∨ syy = 0 then none
    else some (sxy / (ratSqrt sxx * ratSqrt syy))

/-- `scipy.stats.spearmanr` on possibly-NaN inputs: `none` when any input
is NaN (default `nan_policy` propagates) or the rank variance is zero. -/
def spearmanCore (xs ys : List (Option Rat)) : Option Rat :=
  match xs.mapM id, ys.mapM id with
  | some xv, some yv => pearsonCore (avgRanks xv) (avgRanks yv)
  | _, _ => none

/-- `model._spearman_ic`: 0.0 for fewer than 3 points and 0.0 in place of a
NaN correlation. -/
def spearmanIC (xs ys : List (Option Rat)) : Rat :=
  if xs.length < 3 then 0
  else match spearmanCore xs ys with
    | some c => c
    | none => 0

/-- NaN-propagating addition of pandas Series cells. -/
def optAdd : Option Rat → Option Rat → Option Rat
  | some a, some b => some (a + b)
  | _, _ => none

/-- NaN-propagating multiplication of pandas Series cells. -/
def optMul : Option Rat → Option Rat → Option Rat
  | some a, some b => some (a * b)
  | _, _ => none

/-! ## Data model: feature table -/

/-- One row of the feature table.  `vals` is aligned with the owning
`Frame.cols`; `target` is the `forward_return_5d` column, `regime` the
`market_regime` column (`none` = NaN), `nameCol` the `name` column. -/
structure Row where
  as_of : Int
  ticker : String
  vals : List (Option Rat)
  target : Option Rat := none
  regime : Option String := none
  nameCol : Option String := none
  deriving DecidableEq, Repr

/-- A feature table: named feature columns plus rows.  `regimeColPresent`
records whether the `market_regime` column exists at all (pandas
`"market_regime" in df.columns`); the `as_of`, `ticker` and target columns
are always present (the pipeline merges them before any of this code
runs). -/
structure Frame where
  cols : List String
  rows : List Row
  regimeColPresent : Bool := true
  deriving DecidableEq, Repr

/-- Value of feature column `c` in row `r` of frame `f` (`none` when the
column is absent or the cell is NaN). -/
def getCell (f : Frame) (r : Row) (c : String) : Option Rat :=
  match f.cols.indexOf? c with
  | some i => r.vals.getD i none
  | none => none

/-- Mean of feature column `c` over all rows of `f` (pandas
`df[c].mean()`), skipping NaNs. -/
def colMean (f : Frame) (c : String) : Option Rat :=
  meanOpt (f.rows.map (fun r => getCell f r c))

/-- Rows with a non-null target (`features[features[TARGET_COL].notna()]`). -/
def targetRows (f : Frame) : List Row :=
  f.rows.filter (fun r => r.target.isSome)

/-- Same filter kept as a frame (columns unchanged). -/
def targetFrame (f : Frame) : Frame :=
  { f with rows := targetRows f }

/-! ## Linear model (`pipeline/model.py`) -/

/-- The canonical target column name (`model.TARGET_COL`). -/
def TARGET_COL : String := "forward_return_5d"

/-- `model.ModelConfig`. -/
structure ModelConfig where
  model_type : String := "Ridge"
  alpha : Rat := 1
  l1_ratio : Rat := 1/2
  target : String := TARGET_COL
  deriving DecidableEq, Repr

/-- A fitted sklearn linear regressor at its interface: `predict` is the
affine map `x ↦ coef ⬝ x + intercept` (NaN-propagating, as numpy dot is). -/
structure LinModel where
  coef : List Rat
  intercept : Rat := 0
  deriving DecidableEq, Repr

/-- `LinModel.predict` on one (possibly NaN-holding) standardised row. -/
def LinModel.predictRow (m : LinModel) (cells : List (Option Rat)) : Option Rat :=
  match cells.mapM id with
  | some xs => some ((((m.coef.zip xs).map (fun p => p.1 * p.2)).sum) + m.intercept)
  | none => none

/-- The external fit step (`_make_model(cfg)` + `model.fit(X_scaled, y)`),
abstracted at its interface. -/
def Fitter : Type := List (List (Option Rat)) → List Rat → LinModel

/-- `sklearn.preprocessing.StandardScaler` after `fit`: per-feature mean
and scale, where the scale is the population std with zeros replaced by 1
(`_handle_zeros_in_scale`); NaNs are ignored when fitting
(`force_all_finite='allow-nan'`). -/
structure Scaler where
  means : List (Option Rat)
  scales : List Rat
  deriving DecidableEq, Repr

/-- Fit a `StandardScaler` on column `col` (list of optional cells). -/
def fitScalerCol (col : List (Option Rat)) : Option Rat × Rat :=
  let vs := col.filterMap id
  match meanOpt col with
  | none => (none, 1)
  | some m =>
      let varSum := (vs.map (fun v => (v - m) * (v - m))).sum
      let variance := varSum / (vs.length : Rat)
      let std := ratSqrt variance
      (some m, if std = 0 then 1 else std)

/-- Fit a scaler over a row-major matrix with `k` columns. -/
def fitScaler (k : Nat) (x : List (List (Option Rat))) : Scaler :=
  let cols := (List.range k).map (fun j => x.map (fun row => row.getD j none))
  { means := cols.map (fun c => (fitScalerCol c).1)
    scales := cols.map (fun c => (fitScalerCol c).2) }

/-- `StandardScaler.transform` of one row. -/
def Scaler.transformRow (s : Scaler) (row : List (Option Rat)) : List (Option Rat) :=
  (List.range s.means.length).map (fun j =>
    match row.getD j none, s.means.getD j none with
    | some x, some m => some ((x - m) / s.scales.getD j 1)
    | _, _ => none)

/-- `StandardScaler.transform` of a matrix. -/
def Scaler.transform (s : Scaler) (x : List (List (Option Rat))) : List (List (Option Rat)) :=
  x.map s.transformRow

/-- `model.TrainResult`. -/
structure TrainResult where
  model : LinModel
  scaler : Scaler
  coef : List (String × Rat)
  feature_names : List String
  train_rows : Nat
  train_ic : Rat
  deriving DecidableEq, Repr

instance : Inhabited TrainResult :=
  ⟨{ model := { coef := [] }, scaler := { means := [], scales := [] },
     coef := [], feature_names := [], train_rows := 0, train_ic := 0 }⟩

/-- How `train_model` can fail: the hard assertion on the target name
(`AssertionError`, a programming error per the contract) or the
`InsufficientDataError` raised when no row has a non-null target
(`ValueError("No training rows with known forward_return_5d")`). -/
inductive TrainError where
  | assertTarget : TrainError
  | insufficientData : TrainError
  deriving DecidableEq, Repr

/-- Imputed training cell for column `c`: the cell itself, or (for NaN)
the training-column mean (`train_df[col].fillna(train_df[col].mean())`;
an all-NaN column keeps NaN, since `fillna(NaN)` is a no-op).  The dead
`else: train_df[col] = 0.0` branch of the source (unreachable because
`feature_names` was filtered to present columns) is kept. -/
def imputeCell (f : Frame) (trainRows : List Row) (c : String) (r : Row) : Option Rat :=
  if c ∈ f.cols then
    match getCell f r c with
    | some v => some v
    | none => meanOpt (trainRows.map (fun r' => getCell f r' c))
  else some 0

/-- `model.train_model`.  `fit` is the external sklearn fit step. -/
def train_model (fit : Fitter) (features : Frame) (feature_names : List String)
    (cfg : ModelConfig) : Except TrainError TrainResult :=
  if cfg.target ≠ TARGET_COL then .error .assertTarget
  else
    let present := feature_names.filter (fun c => c ∈ features.cols)
    let trainRows := targetRows features
    let x : List (List (Option Rat)) :=
      trainRows.map (fun r => present.map (fun c => imputeCell features trainRows c r))
    let y : List Rat := trainRows.filterMap (fun r => r.target)
    if x.length = 0 then .error .insufficientData
    else
      let scaler := fitScaler present.length x
      let xScaled := scaler.transform x
      let model := fit xScaled y
      let coef := present.zip model.coef
      let yPred := xScaled.map model.predictRow
      let train_ic := spearmanIC yPred (y.map some)
      .ok { model := model, scaler := scaler, coef := coef,
            feature_names := present, train_rows := x.length, train_ic := train_ic }

/-- Prediction-time cell for column `c` of row `r`
(`model.predict` lines 140–144): an entirely absent column is filled with
0.0; a NaN cell in a present column is filled with that column's mean over
the *prediction frame* (`feat_df[col].fillna(feat_df[col].mean())`). -/
def predictCell (f : Frame) (c : String) (r : Row) : Option Rat :=
  if c ∈ f.cols then
    match getCell f r c with
    | some v => some v
    | none => colMean f c
  else some 0

/-- The matrix `predict` builds before scaling. -/
def predictX (res : TrainResult) (f : Frame) : List (List (Option Rat)) :=
  f.rows.map (fun r => res.feature_names.map (fun c => predictCell f c r))

/-- `model.predict`: impute, reuse the fitted scaler unmodified, apply the
fitted model; one optional prediction per input row. -/
def predict (res : TrainResult) (f : Frame) : List (Option Rat) :=
  (res.scaler.transform (predictX res f)).map res.model.predictRow

/-- Modelled from the spec (§4.1 step 3): the prediction routine the spec
describes, which imputes a still-missing value with the **training** mean
(the statistic held in the fitted scaler) instead of the prediction frame's
own mean; absent columns are filled with 0 as in the source. -/
def predictCellSpec (res : TrainResult) (f : Frame) (j : Nat) (c : String) (r : Row) :
    Option Rat :=
  if c ∈ f.cols then
    match getCell f r c with
    | some v => some v
    | none => res.scaler.means.getD j none
  else some 0

/-- Modelled from the spec: `predict` as the spec states it (training-mean
imputation). -/
def predictTrainMeanImpute (res : TrainResult) (f : Frame) : List (Option Rat) :=
  (res.scaler.transform
      (f.rows.map (fun r =>
        (res.feature_names.enum.map (fun p => predictCellSpec res f p.1 p.2 r))))).map
    res.model.predictRow

/-! ## Quality gates (`pipeline/gates.py`)

Gate reasons and rejection reasons are formatted strings in the source
(`f"WF IC {median_ic:.4f} <= threshold {threshold}"` etc.).  They are
modelled as tagged values carrying the unformatted numeric payloads, so
that membership and deduplication are decidable without embedding `%.4f`
formatting. -/

/-- A leak-detection issue (`gates.gate_leak_detection` issue strings). -/
inductive LeakIssue where
  | futureRows (count : Nat) : LeakIssue
  | suspiciousCorr (feature : String) (corr : Rat) : LeakIssue
  deriving DecidableEq, Repr

/-- A single gate's rejection reason (`GateResult.reason`, `""` when the
gate passed — modelled as `Option`). -/
inductive GateReason where
  | wfInsufficient : GateReason
  | wfLowIC (ic threshold : Rat) : GateReason
  | cvFewTickers (n : Nat) : GateReason
  | cvFailed (e : TrainError) : GateReason
  | cvLowIC (ic threshold : Rat) : GateReason
  | costTrainFailed (e : TrainError) : GateReason
  | costNegative (netReturn : Rat) (bps : Nat) : GateReason
  | stabInsufficient : GateReason
  | stabFewWindows : GateReason
  | stabLow (sim threshold : Rat) : GateReason
  | leak (issues : List LeakIssue) : GateReason
  deriving DecidableEq, Repr

/-- `gates.GateResult`.  The heterogeneous `details` dict is modelled as
one optional field per key any gate ever sets (`none` = key absent; a key
present with value `None`, such as `ic` in failure branches, is also
`none`). -/
structure GateResult where
  name : String
  passed : Bool
  details_ic : Option Rat := none
  details_threshold : Option Rat := none
  details_fold_ics : Option (List Rat) := none
  details_n_splits_available : Option Nat := none
  details_n_test_tickers : Option Nat := none
  details_cosine_sim : Option Rat := none
  details_n_windows : Option Nat := none
  details_net_return : Option Rat := none
  details_cost_bps : Option Nat := none
  details_n_days : Option Nat := none
  details_issues : Option (List LeakIssue) := none
  reason : Option GateReason := none
  deriving DecidableEq, Repr

/-- `numpy.round(x, 6)`: round half to even at 6 decimals (applied to every
IC / similarity stored in `details`). -/
def round6 (q : Rat) : Rat :=
  let s := q * 1000000
  let fl := s.floor
  let frac := s - (fl : Rat)
  let n : Int :=
    if frac > 1/2 then fl + 1
    else if frac < 1/2 then fl
    else if fl % 2 = 0 then fl else fl + 1
  (n : Rat) / 1000000

/-- The sorted distinct `as_of` dates among target-non-null rows
(`sorted(df["as_of"].unique())` in `gate_walk_forward` /
`gate_param_stability`). -/
def wfDates (f : Frame) : List Int :=
  sortAsc (uniqueFirst ((targetRows f).map (fun r => r.as_of)))

/-- Fold `k`'s training dates: `dates[: (k+1) * fold_size]`. -/
def wfTrainDates (f : Frame) (n_splits : Nat) (k : Nat) : List Int :=
  let dates := wfDates f
  dates.take ((k + 1) * (dates.length / (n_splits + 1)))

/-- Fold `k`'s test dates: `dates[(k+1)*fold_size : (k+2)*fold_size]`. -/
def wfTestDates (f : Frame) (n_splits : Nat) (k : Nat) : List Int :=
  let dates := wfDates f
  let fs := dates.length / (n_splits + 1)
  (dates.drop ((k + 1) * fs)).take fs

/-- One walk-forward fold's contribution to `ics`: nothing when the test
block is empty; IC 0.0 when training raises; the out-of-sample Spearman IC
otherwise. -/
def wfFoldIC (fit : Fitter) (f : Frame) (feature_names : List String)
    (cfg : ModelConfig) (n_splits : Nat) (k : Nat) : List Rat :=
  let df := targetFrame f
  let testDates := wfTestDates f n_splits k
  if testDates.isEmpty then []
  else
    let trainDf : Frame := { df with rows := df.rows.filter (fun r => r.as_of ∈ wfTrainDates f n_splits k) }
    let testDf : Frame := { df with rows := df.rows.filter (fun r => r.as_of ∈ testDates) }
    match train_model fit trainDf feature_names cfg with
    | .error _ => [0]
    | .ok res =>
        [spearmanIC (predict res testDf) (testDf.rows.map (fun r => r.target))]

/-- `gates.gate_walk_forward`. -/
def gate_walk_forward (fit : Fitter) (features : Frame) (feature_names : List String)
    (cfg : ModelConfig) (threshold : Rat := 1/100) (n_splits : Nat := 3) : GateResult :=
  let dates := wfDates features
  if dates.length < n_splits * 2 then
    { name := "walk_forward", passed := false,
      details_ic := none, details_threshold := some threshold,
      details_n_splits_available := some dates.length,
      reason := some .wfInsufficient }
  else
    let ics := (List.range n_splits).flatMap (wfFoldIC fit features feature_names cfg n_splits)
    let median_ic := if ics.isEmpty then 0 else median ics
    let passed := decide (median_ic > threshold)
    { name := "walk_forward", passed := passed,
      details_ic := some (round6 median_ic), details_threshold := some threshold,
      details_fold_ics := some (ics.map round6),
      reason := if passed then none else some (.wfLowIC median_ic threshold) }

/-- The external deterministic draw
`np.random.default_rng(42).choice(tickers, n_test, replace=False)`,
abstracted at its interface. -/
def TickerChoice : Type := List String → Nat → List String

/-- `gates.gate_ticker_split_cv`.  `choice` is the seeded numpy draw. -/
def gate_ticker_split_cv (fit : Fitter) (choice : TickerChoice) (features : Frame)
    (feature_names : List String) (cfg : ModelConfig)
    (threshold : Rat := 0) (test_frac : Rat := 1/5) : GateResult :=
  let df := targetFrame features
  let tickers := uniqueFirst (df.rows.map (fun r => r.ticker))
  if tickers.length < 5 then
    { name := "ticker_split_cv", passed := false,
      details_ic := none, details_threshold := some threshold,
      reason := some (.cvFewTickers tickers.length) }
  else
    let n_test := max 1 (((tickers.length : Rat) * test_frac).floor.toNat)
    let testTickers := choice tickers n_test
    let trainDf : Frame := { df with rows := df.rows.filter (fun r => r.ticker ∉ testTickers) }
    let testDf : Frame := { df with rows := df.rows.filter (fun r => r.ticker ∈ testTickers) }
    match train_model fit trainDf feature_names cfg with
    | .error e =>
        { name := "ticker_split_cv", passed := false,
          details_ic := none, reason := some (.cvFailed e) }
    | .ok res =>
        let ic := spearmanIC (predict res testDf) (testDf.rows.map (fun r => r.target))
        let passed := decide (ic > threshold)
        { name := "ticker_split_cv", passed := passed,
          details_ic := some (round6 ic), details_threshold := some threshold,
          details_n_test_tickers := some n_test,
          reason := if passed then none else some (.cvLowIC ic threshold) }

/-- One day's net top-decile return inside `gate_cost_test` (the body of
the `for as_of, g in df.groupby("as_of")` loop at one cost level):
nothing when the day has fewer than 5 rows or an empty top decile. -/
def costDailyNet (rows : List (Row × Option Rat)) (cost : Rat) : List Rat :=
  if rows.length < 5 then []
  else
    let pvals := rows.filterMap (fun p => p.2)
    if pvals.isEmpty then []
    else
      let q90 := quantileQ pvals (9/10)
      let top := rows.filter (fun p => match p.2 with | some v => decide (v ≥ q90) | none => false)
      if top.isEmpty then []
      else
        let gross := meanOpt (top.map (fun p => p.1.target))
        [gross.getD 0 - cost]

/-- `gates.gate_cost_test`: one sub-gate per cost level, in list order. -/
def gate_cost_test (fit : Fitter) (features : Frame) (feature_names : List String)
    (cfg : ModelConfig) (cost_bps_list : List Nat := [5, 15]) :
    List (String × GateResult) :=
  let df := targetFrame features
  match train_model fit df feature_names cfg with
  | .error e =>
      cost_bps_list.map (fun bps =>
        (s!"cost_{bps}bps",
         { name := s!"cost_{bps}bps", passed := false,
           reason := some (.costTrainFailed e) }))
  | .ok res =>
      let preds := predict res df
      let withPred := df.rows.zip preds
      let dates := sortAsc (uniqueFirst (df.rows.map (fun r => r.as_of)))
      cost_bps_list.map (fun (bps : Nat) =>
        let cost : Rat := (bps : Rat) / 10000
        let daily := dates.flatMap (fun d =>
          costDailyNet (withPred.filter (fun p => p.1.as_of = d)) cost)
        let cum := daily.sum
        let passed := decide (cum > 0)
        (s!"cost_{bps}bps",
         { name := s!"cost_{bps}bps", passed := passed,
           details_net_return := some (round6 cum), details_cost_bps := some bps,
           details_n_days := some daily.length,
           reason := if passed then none else some (.costNegative cum bps) }))

/-- `gates._cosine_similarity`. -/
def cosineSimilarity (a b : List Rat) : Rat :=
  let na := ratSqrt ((a.map (fun x => x * x)).sum)
  let nb := ratSqrt ((b.map (fun x => x * x)).sum)
  if na = 0 ∨ nb = 0 then 0 else ((a.zip b).map (fun p => p.1 * p.2)).sum / (na * nb)

/-- The coefficient vectors successfully trained on each stability window
(`coef_vectors` in `gate_param_stability`; windows whose training raises
are skipped). -/
def stabCoefVectors (fit : Fitter) (features : Frame) (feature_names : List String)
    (cfg : ModelConfig) (n_windows : Nat) (window : Nat) : List (List Rat) :=
  let df := targetFrame features
  let dates := wfDates features
  (List.range n_windows).flatMap (fun i =>
    let windowDates := (dates.drop (i * window)).take window
    let subDf : Frame := { df with rows := df.rows.filter (fun r => r.as_of ∈ windowDates) }
    match train_model fit subDf feature_names cfg with
    | .error _ => []
    | .ok res => [feature_names.map (fun c => ((res.coef.lookup c).getD 0))])

/-- All ordered pairwise cosine similarities (`for i ... for j in i+1 ...`). -/
def pairwiseSims : List (List Rat) → List Rat
  | [] => []
  | v :: vs => vs.map (cosineSimilarity v) ++ pairwiseSims vs

/-- `gates.gate_param_stability`. -/
def gate_param_stability (fit : Fitter) (features : Frame) (feature_names : List String)
    (cfg : ModelConfig) (threshold : Rat := 7/10) (n_windows : Nat := 3) : GateResult :=
  let dates := wfDates features
  let window := dates.length / n_windows
  if window < 10 then
    { name := "param_stability", passed := false,
      details_cosine_sim := none, details_threshold := some threshold,
      reason := some .stabInsufficient }
  else
    let vecs := stabCoefVectors fit features feature_names cfg n_windows window
    if vecs.length < 2 then
      { name := "param_stability", passed := false,
        details_cosine_sim := none,
        reason := some .stabFewWindows }
    else
      let sims := pairwiseSims vecs
      let mean_sim := meanRat sims
      let passed := decide (mean_sim > threshold)
      { name := "param_stability", passed := passed,
        details_cosine_sim := some (round6 mean_sim), details_threshold := some threshold,
        details_n_windows := some vecs.length,
        reason := if passed then none else some (.stabLow mean_sim threshold) }

/-- Sample standard deviation is positive iff the sample variance is;
`col.std() > 0` (pandas, `ddof=1`) is modelled by positivity of the
centred square sum, exact over `Rat`. -/
def sampleVarPos (xs : List Rat) : Bool :=
  let m := meanRat xs
  decide (((xs.map (fun x => (x - m) * (x - m))).sum) > 0) && decide (xs.length ≥ 2)

/-- `gates.gate_leak_detection`. -/
def gate_leak_detection (features : Frame) (feature_names : List String)
    (as_of : Int) : GateResult :=
  let futureRows := (features.rows.filter (fun r => r.as_of > as_of)).length
  let issues1 : List LeakIssue := if futureRows > 0 then [.futureRows futureRows] else []
  let dfNotna := targetFrame features
  let issues2 : List LeakIssue := feature_names.flatMap (fun feat =>
    if feat ∈ features.cols then
      let col := dfNotna.rows.map (fun r => (getCell dfNotna r feat).getD 0)
      let tgt := dfNotna.rows.filterMap (fun r => r.target)
      if sampleVarPos col && sampleVarPos tgt then
        match pearsonCore col tgt with
        | some corr => if |corr| > 99/100 then [.suspiciousCorr feat corr] else []
        | none => []
      else []
    else [])
  let issues := issues1 ++ issues2
  let passed := issues.isEmpty
  { name := "leak_detection", passed := passed,
    details_issues := some issues,
    reason := if passed then none else some (.leak issues) }

/-- A rejection reason appended by `run_all_gates` (formatted strings in
the source, tagged values here). -/
inductive Reason where
  | preflightEligible (n_eligible min_eligible : Nat) : Reason
  | preflightMissing (missing_rate missing_threshold : Rat) : Reason
  | gate (gateName : String) (r : Option GateReason) : Reason
  | confidence (wf_ic confidence_threshold : Rat) : Reason
  deriving DecidableEq, Repr

/-- The `gate_cfg` threshold overrides with their `.get` defaults. -/
structure GateCfg where
  wf_ic_threshold : Rat := 1/100
  ticker_cv_ic_threshold : Rat := 0
  param_stability_threshold : Rat := 7/10
  cost_bps : List Nat := [5, 15]
  missing_rate_threshold : Rat := 1/5
  min_eligible_stocks : Nat := 5
  confidence_threshold : Rat := 1/200
  deriving DecidableEq, Repr

/-- `gates.AllGatesResult` (the `gates` dict is an insertion-ordered
association list). -/
structure AllGatesResult where
  all_passed : Bool
  gates : List (String × GateResult)
  rejection_reasons : List Reason
  missing_rate : Rat
  n_eligible : Nat
  deriving DecidableEq, Repr

/-- The decision-date slice `features[features["as_of"] == as_of]` used by
the pre-flight checks. -/
def eligibleRows (features : Frame) (as_of : Int) : List Row :=
  features.rows.filter (fun r => r.as_of = as_of)

/-- The fraction of eligible rows with any missing feature value (1.0 when
the day has no rows, as in the source's `else` branch). -/
def missingRate (features : Frame) (feature_names : List String) (as_of : Int) : Rat :=
  if (eligibleRows features as_of).length > 0 then
    (((eligibleRows features as_of).filter (fun r =>
        feature_names.any (fun c => (getCell features r c).isNone))).length : Rat)
      / ((eligibleRows features as_of).length : Rat)
  else 1

/-- The `gates` dict of `run_all_gates`, in insertion (= evaluation)
order. -/
def gateList (fit : Fitter) (choice : TickerChoice) (features : Frame)
    (feature_names : List String) (as_of : Int) (cfg : ModelConfig)
    (gate_cfg : GateCfg) : List (String × GateResult) :=
  [("walk_forward", gate_walk_forward fit features feature_names cfg
      gate_cfg.wf_ic_threshold),
   ("ticker_split_cv", gate_ticker_split_cv fit choice features feature_names cfg
      gate_cfg.ticker_cv_ic_threshold)]
  ++ gate_cost_test fit features feature_names cfg gate_cfg.cost_bps
  ++ [("param_stability", gate_param_stability fit features feature_names cfg
        gate_cfg.param_stability_threshold),
      ("leak_detection", gate_leak_detection features feature_names as_of)]

/-- The rejection reasons appended before the confidence check, in
evaluation order: pre-flight eligibility, pre-flight missing rate,
walk-forward, ticker-CV, each cost sub-gate, stability, leak detection. -/
def preConfidenceReasons (fit : Fitter) (choice : TickerChoice) (features : Frame)
    (feature_names : List String) (as_of : Int) (cfg : ModelConfig)
    (gate_cfg : GateCfg) : List Reason :=
  (if (eligibleRows features as_of).length < gate_cfg.min_eligible_stocks then
    [.preflightEligible (eligibleRows features as_of).length gate_cfg.min_eligible_stocks]
  else [])
  ++ (if missingRate features feature_names as_of > gate_cfg.missing_rate_threshold then
    [.preflightMissing (missingRate features feature_names as_of)
      gate_cfg.missing_rate_threshold]
  else [])
  ++ (if (gate_walk_forward fit features feature_names cfg gate_cfg.wf_ic_threshold).passed
    then []
    else [.gate "walk_forward"
      (gate_walk_forward fit features feature_names cfg gate_cfg.wf_ic_threshold).reason])
  ++ (if (gate_ticker_split_cv fit choice features feature_names cfg
        gate_cfg.ticker_cv_ic_threshold).passed
    then []
    else [.gate "ticker_split_cv"
      (gate_ticker_split_cv fit choice features feature_names cfg
        gate_cfg.ticker_cv_ic_threshold).reason])
  ++ (gate_cost_test fit features feature_names cfg gate_cfg.cost_bps).flatMap
    (fun p => if p.2.passed then [] else [.gate p.1 p.2.reason])
  ++ (if (gate_param_stability fit features feature_names cfg
        gate_cfg.param_stability_threshold).passed
    then []
    else [.gate "param_stability"
      (gate_param_stability fit features feature_names cfg
        gate_cfg.param_stability_threshold).reason])
  ++ (if (gate_leak_detection features feature_names as_of).passed
    then []
    else [.gate "leak_detection" (gate_leak_detection features feature_names as_of).reason])

/-- The full (un-deduplicated) rejection-reason list: the pre-confidence
reasons followed by the confidence check on the walk-forward gate's
reported IC.  The Python `wf.details.get("ic") or 0.0` maps `None` (and
`0.0`) to `0.0`, after which its `is not None` guard is always true. -/
def runReasons (fit : Fitter) (choice : TickerChoice) (features : Frame)
    (feature_names : List String) (as_of : Int) (cfg : ModelConfig)
    (gate_cfg : GateCfg) : List Reason :=
  preConfidenceReasons fit choice features feature_names as_of cfg gate_cfg
  ++ (if (gate_walk_forward fit features feature_names cfg
        gate_cfg.wf_ic_threshold).details_ic.getD 0 < gate_cfg.confidence_threshold then
    [.confidence
      ((gate_walk_forward fit features feature_names cfg
        gate_cfg.wf_ic_threshold).details_ic.getD 0)
      gate_cfg.confidence_threshold]
  else [])

/-- `gates.run_all_gates`.  `list(dict.fromkeys(...))` is `uniqueFirst`;
`all_passed` is computed from the un-deduplicated reason list exactly as in
the source. -/
def run_all_gates (fit : Fitter) (choice : TickerChoice) (features : Frame)
    (feature_names : List String) (as_of : Int)
    (cfg : ModelConfig := {}) (gate_cfg : GateCfg := {}) : AllGatesResult :=
  { all_passed := (runReasons fit choice features feature_names as_of cfg gate_cfg).isEmpty
    gates := gateList fit choice features feature_names as_of cfg gate_cfg
    rejection_reasons :=
      uniqueFirst (runReasons fit choice features feature_names as_of cfg gate_cfg)
    missing_rate := missingRate features feature_names as_of
    n_eligible := (eligibleRows features as_of).length }

/-! ## Watchlist builder (`pipeline/watchlist.py`) -/

/-- `watchlist.WatchlistConfig`. -/
structure WatchlistConfig where
  size : Nat := 50
  max_new : Nat := 20
  min_retained : Nat := 30
  turnover_penalty : Rat := 1/100
  deriving DecidableEq, Repr

/-- `watchlist.WatchlistEntry`. -/
structure WatchlistEntry where
  ticker : String
  name : String
  score : Rat
  reason_short : String
  is_new : Bool
  turnover_penalty : Rat
  deriving DecidableEq, Repr

/-- The decision-date slice `features[features["as_of"] == as_of_date]`. -/
def sliceDay (f : Frame) (as_of_date : Int) : List Row :=
  f.rows.filter (fun r => r.as_of = as_of_date)

/-- The default `regime_multipliers` of `_compute_scores`. -/
def defaultRegimeMultipliers : List (String × Rat) := [("risk_on", 1), ("risk_off", 1/2)]

/-- The day's regime value (`build_watchlist` lines 89–91): "risk_on"
unless the `market_regime` column exists and is not all-NaN, in which case
the first day-row's value (itself possibly NaN = `none`). -/
def dayRegime (f : Frame) (day : List Row) : Option String :=
  if f.regimeColPresent && !(day.all (fun r => r.regime.isNone)) then
    (day.headD { as_of := 0, ticker := "", vals := [] }).regime
  else some "risk_on"

/-- `regime_multipliers.get(market_regime, 1.0)`; a NaN regime value is not
a dict key, so it maps to the default 1. -/
def regimeMultiplier (rms : List (String × Rat)) : Option String → Rat
  | some s => (rms.lookup s).getD 1
  | none => 1

/-- One row's composite score as `_compute_scores` builds it: a running
NaN-propagating Series sum starting at 0.0, adding
`coef[feat] * col.fillna(0.0)` for each configured signal feature that has
both a column and a coefficient, finally multiplied by the regime
multiplier. -/
def rowScore (f : Frame) (signal_features : List String)
    (model_coef : List (String × Rat)) (multiplier : Rat) (r : Row) : Option Rat :=
  optMul
    (signal_features.foldl (fun acc feat =>
        if feat ∈ f.cols ∧ (model_coef.lookup feat).isSome then
          optAdd acc (optMul (some ((model_coef.lookup feat).getD 0))
            (some ((getCell f r feat).getD 0)))
        else acc)
      (some 0))
    (some multiplier)

/-- A day row after scoring, the dropna step, and the turnover annotation
(`_score`, `_is_new`, `_turnover_penalty`, `_adj_score` columns). -/
structure ScoredRow where
  row : Row
  score : Rat
  is_new : Bool
  penalty : Rat
  adj : Rat
  deriving DecidableEq, Repr

/-- Scoring plus `day_df.dropna(subset=["_score"])`: rows whose composite
score is NaN are dropped, the rest keep their (unwrapped) score. -/
def scoredDay (f : Frame) (day : List Row) (signal_features : List String)
    (model_coef : List (String × Rat)) (multiplier : Rat) : List (Row × Rat) :=
  (day.map (fun r => (r, rowScore f signal_features model_coef multiplier r))).filterMap
    (fun p => p.2.map (fun s => (p.1, s)))

/-- The turnover annotation (`build_watchlist` lines 103–105). -/
def annotateTurnover (prevSet : List String) (penalty : Rat) (l : List (Row × Rat)) :
    List ScoredRow :=
  l.map (fun p =>
    let isNew := p.1.ticker ∉ prevSet
    let pen := if isNew then penalty else 0
    { row := p.1, score := p.2, is_new := isNew, penalty := pen, adj := p.2 - pen })

/-- `watchlist._reason_short`: name of the feature with the largest
absolute non-NaN value (strict improvement over a running best started at
-1e9, so first-encountered wins ties), `"composite"` when every feature is
absent or NaN. -/
def reasonShort (f : Frame) (r : Row) (features : List String) : String :=
  let best := features.foldl
    (fun (acc : Option String × Rat) feat =>
      if feat ∈ f.cols then
        match getCell f r feat with
        | some v => if |v| > acc.2 then (some feat, |v|) else acc
        | none => acc
      else acc)
    (none, -1000000000)
  match best.1 with
  | some feat => String.mk (feat.data.map (fun c => if c = '_' then ' ' else c))
  | none => "composite"

/-- `WatchlistEntry` from a selected row. -/
def toEntry (f : Frame) (signal_features : List String) (sr : ScoredRow) : WatchlistEntry :=
  { ticker := sr.row.ticker
    name := sr.row.nameCol.getD sr.row.ticker
    score := sr.adj
    reason_short := reasonShort f sr.row signal_features
    is_new := sr.is_new
    turnover_penalty := sr.penalty }

/-- The previous-watchlist ticker set (`set(prev_watchlist or [])`:
first-occurrence dedup, used for membership and its size only). -/
def wlPrevSet (prev_watchlist : Option (List String)) : List String :=
  uniqueFirst (prev_watchlist.getD [])

/-- The day's regime multiplier as `build_watchlist` passes it to
`_compute_scores`. -/
def wlMultiplier (features : Frame) (as_of_date : Int)
    (regime_multipliers : Option (List (String × Rat))) : Rat :=
  regimeMultiplier (regime_multipliers.getD defaultRegimeMultipliers)
    (dayRegime features (sliceDay features as_of_date))

/-- The day rows after scoring, dropna, and turnover annotation
(`day_df` with its `_score`/`_is_new`/`_turnover_penalty`/`_adj_score`
columns, lines 93–105). -/
def wlAnnotated (features : Frame) (as_of_date : Int)
    (model_coef : List (String × Rat)) (signal_features : List String)
    (prev_watchlist : Option (List String)) (cfg : WatchlistConfig)
    (regime_multipliers : Option (List (String × Rat))) : List ScoredRow :=
  annotateTurnover (wlPrevSet prev_watchlist) cfg.turnover_penalty
    (scoredDay features (sliceDay features as_of_date) signal_features model_coef
      (wlMultiplier features as_of_date regime_multipliers))

/-- The selected rows (`build_watchlist` lines 107–117): sort by adjusted
score descending, then either the two-pool rotation branch or the plain
top-`size` branch. -/
def wlSelected (features : Frame) (as_of_date : Int)
    (model_coef : List (String × Rat)) (signal_features : List String)
    (prev_watchlist : Option (List String)) (cfg : WatchlistConfig)
    (regime_multipliers : Option (List (String × Rat))) : List ScoredRow :=
  let prevSet := wlPrevSet prev_watchlist
  let sorted := sortDescBy (fun sr => sr.adj)
    (wlAnnotated features as_of_date model_coef signal_features prev_watchlist cfg
      regime_multipliers)
  if !prevSet.isEmpty ∧ prevSet.length ≥ cfg.min_retained then
    let retained := (sorted.filter (fun sr => sr.row.ticker ∈ prevSet)).take cfg.min_retained
    let newCandidates := (sorted.filter (fun sr => sr.row.ticker ∉ prevSet)).take cfg.max_new
    (sortDescBy (fun sr => sr.adj) (retained ++ newCandidates)).take cfg.size
  else sorted.take cfg.size

/-- `watchlist.build_watchlist`.  `prev_watchlist = none` is Python's
`None`. -/
def build_watchlist (features : Frame) (as_of_date : Int)
    (model_coef : List (String × Rat)) (signal_features : List String)
    (prev_watchlist : Option (List String) := none)
    (cfg : WatchlistConfig := {})
    (regime_multipliers : Option (List (String × Rat)) := none) : List WatchlistEntry :=
  if (sliceDay features as_of_date).isEmpty then []
  else
    (wlSelected features as_of_date model_coef signal_features prev_watchlist cfg
      regime_multipliers).map (toEntry features signal_features)

/-! ## Spec-side formulations used for refinement comparisons -/

/-- Modelled from the spec (§4.1 step 3, amended reading): the prediction
frame's column `c` after pandas' column-wise fill — an absent column is a
column of zeros, a present column has each NaN cell replaced by that
column's mean over the **prediction frame**. -/
def specFilledColumn (f : Frame) (c : String) : List (Option Rat) :=
  if c ∈ f.cols then
    f.rows.map (fun r =>
      match getCell f r c with
      | some v => some v
      | none => meanOpt (f.rows.map (fun r' => getCell f r' c)))
  else f.rows.map (fun _ => some 0)

/-- The prediction matrix described column-first: row `i` reads its cells
out of the filled columns. -/
def specX (res : TrainResult) (f : Frame) : List (List (Option Rat)) :=
  (List.range f.rows.length).map (fun i =>
    res.feature_names.map (fun c => (specFilledColumn f c).getD i none))

/-! ## Concrete fixtures for witnesses and counterexamples -/

/-- A concrete sklearn fit stub: whatever the data, the fitted linear model
has coefficient vector `[1]` and intercept 0 (a legitimate inhabitant of
the external-regressor interface). -/
def constFit : Fitter := fun _ _ => { coef := [1], intercept := 0 }

/-- A concrete inhabitant of the seeded numpy draw interface: take the
first `n` tickers. -/
def takeChoice : TickerChoice := fun ts n => ts.take n

/-- Two training rows for feature `f`: values 9 and 11 (mean 10,
population std 1), both with a known target. -/
def trainFrame0 : Frame :=
  { cols := ["f"],
    rows := [ { as_of := 1, ticker := "A", vals := [some 9], target := some 1 },
              { as_of := 2, ticker := "B", vals := [some 11], target := some 2 } ] }

/-- The `TrainResult` fitted on `trainFrame0` (training mean of `f` is 10). -/
def tr0 : TrainResult :=
  match train_model constFit trainFrame0 ["f"] {} with
  | .ok t => t
  | .error _ => default

/-- A prediction frame whose `f` column is `[NaN, 2]`: its own column mean
is 2, while the training mean held in the fitted scaler is 10. -/
def predFrame0 : Frame :=
  { cols := ["f"],
    rows := [ { as_of := 3, ticker := "A", vals := [none] },
              { as_of := 3, ticker := "B", vals := [some 2] } ] }

/-- A frame with the `f` feature column and no rows. -/
def emptyFrame : Frame := { cols := ["f"], rows := [] }

/-- A single decision-date row: date 5, ticker `A`, feature value 1. -/
def wlRow0 : Row := { as_of := 5, ticker := "A", vals := [some 1] }

/-- A one-row frame for the watchlist claims (decision date 5, single
ticker `A` with feature value 1). -/
def wlFrame : Frame := { cols := ["f"], rows := [wlRow0] }

/-- A pathological-but-representable `WatchlistConfig`: `min_retained = 0`
and `max_new = 0`. -/
def wlCfg0 : WatchlistConfig :=
  { size := 1, max_new := 0, min_retained := 0, turnover_penalty := 1/100 }

/-- A `WatchlistConfig` whose `min_retained` is small enough for a
two-ticker previous watchlist to trigger the rotation branch. -/
def wlCfgRet : WatchlistConfig := { min_retained := 2 }

/-- The entry `build_watchlist` produces from `wlFrame` at date 5 with
coefficient 1 on `f` and no previous watchlist: new, penalised by 1/100,
adjusted score `1 - 1/100`. -/
def wlEntry0 : WatchlistEntry :=
  { ticker := "A", name := "A", score := 99/100, reason_short := "f",
    is_new := true, turnover_penalty := 1/100 }

/-- The walk-forward gate result `run_all_gates` produces on the empty
frame at the default thresholds: the insufficient-data failure with a null
IC. -/
def wfGateE : GateResult :=
  { name := "walk_forward", passed := false,
    details_ic := none, details_threshold := some (1/100),
    details_n_splits_available := some 0,
    reason := some .wfInsufficient }

/-- Seven one-row days (dates 1..7, all targets known): with the default 3
splits the fold size is `7 / 4 = 1` and the last `7 % 4 = 3` dates belong
to no fold. -/
def wfFrame7 : Frame :=
  { cols := ["f"],
    rows := (List.range 7).map (fun i =>
      { as_of := (i : Int) + 1, ticker := "A", vals := [some ((i : Rat))],
        target := some 0 }) }

/-! # Theorems for the claims -/

/-- C1, counterexample.  On the fitted `tr0` (training mean 10 for feature
`f`) and the prediction frame with `f = [NaN, 2]`, the source `predict`
disagrees with the spec's training-mean imputation: the source fills the
NaN with the prediction frame's own mean 2, the spec text demands 10. -/
theorem C1_pred_mean_counterexample :
    (train_model constFit trainFrame0 ["f"] {}).isOk = true ∧
      predict tr0 predFrame0 ≠ predictTrainMeanImpute tr0 predFrame0 := by
  decide

/-- C1, amended: at prediction time a still-missing value of a feature
column *present* in the prediction frame is imputed with that column's
mean over the prediction frame (not the training statistic), and a feature
column entirely absent from the prediction frame is filled with 0 — the
matrix `predict` scales and scores is exactly the column-wise-filled
matrix `specX`. -/
theorem C1_predict_imputes_prediction_frame_mean (res : TrainResult) (f : Frame) :
    predictX res f = specX res f := by
  apply List.ext_getElem
  · simp [predictX, specX]
  · intro i h1 h2
    simp only [predictX, specX, List.getElem_map, List.getElem_range]
    apply List.map_congr_left
    intro c _
    simp only [specFilledColumn, predictCell, colMean]
    split
    · simp [List.getD_eq_getElem?_getD, List.getElem?_map,
        List.getElem?_eq_getElem (by simpa [predictX] using h1)]
    · simp [List.getD_eq_getElem?_getD, List.getElem?_replicate,
        show i < f.rows.length from by simpa [predictX] using h1]

/-- C2: with the contractual target column, `train_model` fails with the
insufficient-data error exactly when no row has a non-null target after
filtering (the failure is an `Except.error`, not a degraded result), and
returns a `TrainResult` otherwise. -/
theorem C2_train_insufficient_iff_no_target_rows (fit : Fitter) (features : Frame)
    (names : List String) (cfg : ModelConfig) (h : cfg.target = TARGET_COL) :
    (train_model fit features names cfg = .error .insufficientData ↔
      targetRows features = []) ∧
    (targetRows features ≠ [] →
      ∃ tr, train_model fit features names cfg = .ok tr) := by
  unfold train_model
  simp only [h, ne_eq, not_true_eq_false, if_false, List.length_map,
    List.length_eq_zero, ite_not]
  by_cases hE : targetRows features = [] <;> simp [hE]

/-- C2 witness: `trainFrame0` has target rows, so training succeeds and
the error-iff-empty equivalence holds there. -/
theorem C2_witness :
    ({} : ModelConfig).target = TARGET_COL ∧
      ((train_model constFit trainFrame0 ["f"] {} = .error .insufficientData ↔
          targetRows trainFrame0 = []) ∧
        (targetRows trainFrame0 ≠ [] →
          ∃ tr, train_model constFit trainFrame0 ["f"] {} = .ok tr)) :=
  ⟨rfl, C2_train_insufficient_iff_no_target_rows constFit trainFrame0 ["f"] {} rfl⟩

/-- C3: with fewer than `2 * n_splits` distinct target-non-null dates,
`gate_walk_forward` is exactly the insufficient-data failure — `passed =
false`, `details.ic = None`, no fold ICs — and the result does not depend
on the model fitter (no model is trained). -/
theorem C3_walk_forward_insufficient (fit : Fitter) (features : Frame)
    (names : List String) (cfg : ModelConfig) (threshold : Rat) (n_splits : Nat)
    (h : (wfDates features).length < n_splits * 2) :
    gate_walk_forward fit features names cfg threshold n_splits =
      { name := "walk_forward", passed := false,
        details_ic := none, details_threshold := some threshold,
        details_n_splits_available := some (wfDates features).length,
        reason := some .wfInsufficient } := by
  unfold gate_walk_forward
  rw [if_pos h]

/-- C3 witness: the empty frame has 0 distinct dates `< 6`, and the gate
returns the insufficient-data failure there. -/
theorem C3_witness :
    (wfDates emptyFrame).length < 3 * 2 ∧
      gate_walk_forward constFit emptyFrame ["f"] {} (1/100) 3 =
        { name := "walk_forward", passed := false,
          details_ic := none, details_threshold := some (1/100),
          details_n_splits_available := some (wfDates emptyFrame).length,
          reason := some .wfInsufficient } :=
  ⟨by decide, C3_walk_forward_insufficient constFit emptyFrame ["f"] {} (1/100) 3 (by decide)⟩

/-! ### Helper lemmas -/

theorem insertDescBy_perm {α : Type} (key : α → Rat) (x : α) (l : List α) :
    (insertDescBy key x l).Perm (x :: l) := by
  induction l with
  | nil => simp [insertDescBy]
  | cons y ys ih =>
      by_cases h : key x ≥ key y
      · simp [insertDescBy, h]
      · simp only [insertDescBy, if_neg h]
        exact ((ih.cons y).trans (List.Perm.swap x y ys))

theorem sortDescBy_perm {α : Type} (key : α → Rat) (l : List α) :
    (sortDescBy key l).Perm l := by
  induction l with
  | nil => simp [sortDescBy]
  | cons x xs ih =>
      exact (insertDescBy_perm key x (sortDescBy key xs)).trans (ih.cons x)

theorem insertAsc_perm (x : Int) (l : List Int) : (insertAsc x l).Perm (x :: l) := by
  induction l with
  | nil => simp [insertAsc]
  | cons y ys ih =>
      by_cases h : x ≤ y
      · simp [insertAsc, h]
      · simp only [insertAsc, if_neg h]
        exact ((ih.cons y).trans (List.Perm.swap x y ys))

theorem sortAsc_perm (l : List Int) : (sortAsc l).Perm l := by
  induction l with
  | nil => simp [sortAsc]
  | cons x xs ih => exact (insertAsc_perm x (sortAsc xs)).trans (ih.cons x)

theorem mem_uniqueFirst_aux {α : Type} [DecidableEq α] (l acc : List α) (a : α) :
    a ∈ l.foldl (fun acc x => if x ∈ acc then acc else acc ++ [x]) acc ↔
      a ∈ acc ∨ a ∈ l := by
  induction l generalizing acc with
  | nil => simp
  | cons x xs ih =>
      simp only [List.foldl_cons, ih, List.mem_cons]
      by_cases h : x ∈ acc
      · simp only [if_pos h]
        constructor
        · rintro (ha | ha) <;> tauto
        · rintro (ha | ha | ha) <;> (try subst ha) <;> tauto
      · simp only [if_neg h, List.mem_append, List.mem_singleton]
        tauto

theorem mem_uniqueFirst {α : Type} [DecidableEq α] (l : List α) (a : α) :
    a ∈ uniqueFirst l ↔ a ∈ l := by
  simpa using mem_uniqueFirst_aux l [] a

theorem uniqueFirst_nodup_aux {α : Type} [DecidableEq α] (l : List α) (acc : List α)
    (h : acc.Nodup) :
    (l.foldl (fun acc x => if x ∈ acc then acc else acc ++ [x]) acc).Nodup := by
  induction l generalizing acc with
  | nil => simpa
  | cons x xs ih =>
      simp only [List.foldl_cons]
      by_cases hx : x ∈ acc
      · rw [if_pos hx]; exact ih acc h
      · rw [if_neg hx]; exact ih (acc ++ [x]) (by simp [List.nodup_append, h, hx])

theorem uniqueFirst_nodup {α : Type} [DecidableEq α] (l : List α) :
    (uniqueFirst l).Nodup :=
  uniqueFirst_nodup_aux l [] List.nodup_nil

theorem uniqueFirst_eq_nil_aux {α : Type} [DecidableEq α] (l acc : List α) :
    l.foldl (fun acc x => if x ∈ acc then acc else acc ++ [x]) acc = [] ↔
      acc = [] ∧ l = [] := by
  induction l generalizing acc with
  | nil => simp
  | cons x xs ih =>
      simp only [List.foldl_cons, ih]
      by_cases h : x ∈ acc
      · simp only [if_pos h]
        constructor
        · rintro ⟨ha, _⟩; subst ha; simp at h
        · rintro ⟨_, hxs⟩; simp at hxs
      · simp only [if_neg h]
        constructor
        · rintro ⟨ha, _⟩; simp at ha
        · rintro ⟨_, hxs⟩; simp at hxs

theorem uniqueFirst_eq_nil {α : Type} [DecidableEq α] (l : List α) :
    uniqueFirst l = [] ↔ l = [] := by
  simpa using uniqueFirst_eq_nil_aux l []

/-- Every row that survives the dropna stage pairs a day row with its
(non-null) composite score. -/
theorem mem_scoredDay (f : Frame) (day : List Row) (sig : List String)
    (coef : List (String × Rat)) (mult : Rat) (r : Row) (s : Rat)
    (h : (r, s) ∈ scoredDay f day sig coef mult) :
    r ∈ day ∧ rowScore f sig coef mult r = some s := by
  simp only [scoredDay, List.mem_filterMap, List.mem_map] at h
  obtain ⟨p, ⟨r', hr', rfl⟩, hmap⟩ := h
  cases hs : rowScore f sig coef mult r' with
  | none => rw [hs] at hmap; simp at hmap
  | some v =>
      rw [hs] at hmap
      simp only [Option.map_some', Option.some.injEq, Prod.mk.injEq] at hmap
      obtain ⟨rfl, rfl⟩ := hmap
      exact ⟨hr', hs⟩

/-- Every annotated row records `is_new` as non-membership of its ticker in
the previous set, the matching turnover penalty, the adjusted score, and a
provenance pair from the dropna stage. -/
theorem mem_annotateTurnover (prevSet : List String) (penalty : Rat)
    (l : List (Row × Rat)) (sr : ScoredRow) (h : sr ∈ annotateTurnover prevSet penalty l) :
    (sr.row, sr.score) ∈ l ∧
      sr.is_new = decide (sr.row.ticker ∉ prevSet) ∧
      sr.penalty = (if sr.row.ticker ∉ prevSet then penalty else 0) ∧
      sr.adj = sr.score - sr.penalty := by
  simp only [annotateTurnover, List.mem_map] at h
  obtain ⟨⟨r, s⟩, hmem, rfl⟩ := h
  refine ⟨hmem, ?_, ?_, rfl⟩ <;> by_cases hnew : r.ticker ∈ prevSet <;> simp [hnew]

/-- The annotated rows each selected entry is drawn from, in both branches
of the rotation constraint. -/
theorem build_watchlist_mem_structure (features : Frame) (as_of_date : Int)
    (model_coef : List (String × Rat)) (signal_features : List String)
    (prev_watchlist : Option (List String)) (cfg : WatchlistConfig)
    (regime_multipliers : Option (List (String × Rat)))
    (e : WatchlistEntry)
    (he : e ∈ build_watchlist features as_of_date model_coef signal_features
      prev_watchlist cfg regime_multipliers) :
    ∃ sr : ScoredRow,
      sr ∈ wlAnnotated features as_of_date model_coef signal_features prev_watchlist cfg
        regime_multipliers ∧
      e = toEntry features signal_features sr := by
  unfold build_watchlist at he
  split at he
  · simp at he
  · simp only [List.mem_map] at he
    obtain ⟨sr, hsr, rfl⟩ := he
    refine ⟨sr, ?_, rfl⟩
    simp only [wlSelected] at hsr
    split at hsr
    · have h1 := (List.take_subset _ _) hsr
      have h2 := ((sortDescBy_perm _ _).mem_iff).mp h1
      rcases List.mem_append.mp h2 with h3 | h3
      · exact ((sortDescBy_perm _ _).mem_iff).mp
          (List.mem_filter.mp ((List.take_subset _ _) h3)).1
      · exact ((sortDescBy_perm _ _).mem_iff).mp
          (List.mem_filter.mp ((List.take_subset _ _) h3)).1
    · exact ((sortDescBy_perm _ _).mem_iff).mp ((List.take_subset _ _) hsr)

/-- A composite score is never null: the running Series sum starts at the
non-null 0.0 and every step adds a NaN-free term (`fillna(0.0)` on the
column, a plain coefficient). -/
theorem rowScore_isSome (f : Frame) (sig : List String) (coef : List (String × Rat))
    (mult : Rat) (r : Row) : (rowScore f sig coef mult r).isSome = true := by
  unfold rowScore
  have step : ∀ (l : List String) (acc : Option Rat), acc.isSome = true →
      (l.foldl (fun acc feat =>
        if feat ∈ f.cols ∧ (coef.lookup feat).isSome then
          optAdd acc (optMul (some ((coef.lookup feat).getD 0))
            (some ((getCell f r feat).getD 0)))
        else acc) acc).isSome = true := by
    intro l
    induction l with
    | nil => intro acc h; simpa
    | cons x xs ih =>
        intro acc h
        simp only [List.foldl_cons]
        apply ih
        split
        · cases acc with
          | none => simp at h
          | some a => simp [optAdd, optMul]
        · exact h
  obtain ⟨a, ha⟩ := Option.isSome_iff_exists.mp (step sig (some 0) rfl)
  rw [ha]
  simp [optMul]

/-- The dropna stage passes every row through, in order, paired with its
unwrapped score. -/
theorem scoredDay_map_fst (f : Frame) (day : List Row) (sig : List String)
    (coef : List (String × Rat)) (mult : Rat) :
    (scoredDay f day sig coef mult).map Prod.fst = day := by
  induction day with
  | nil => simp [scoredDay]
  | cons r rest ih =>
      obtain ⟨s, hs⟩ := Option.isSome_iff_exists.mp (rowScore_isSome f sig coef mult r)
      simp only [scoredDay, List.map_cons, List.filterMap_cons, hs, Option.map_some']
      simpa [scoredDay] using ih

/-! ### Claim theorems for the watchlist -/

/-- C6: the watchlist never exceeds the configured size, and an input with
no rows for the decision date yields the empty watchlist. -/
theorem C6_watchlist_size_bound (features : Frame) (as_of_date : Int)
    (model_coef : List (String × Rat)) (signal_features : List String)
    (prev_watchlist : Option (List String)) (cfg : WatchlistConfig)
    (regime_multipliers : Option (List (String × Rat))) :
    (build_watchlist features as_of_date model_coef signal_features prev_watchlist cfg
        regime_multipliers).length ≤ cfg.size ∧
      (sliceDay features as_of_date = [] →
        build_watchlist features as_of_date model_coef signal_features prev_watchlist cfg
          regime_multipliers = []) := by
  constructor
  · unfold build_watchlist
    split
    · simp
    · rw [List.length_map]
      simp only [wlSelected]
      split <;> (rw [List.length_take]; exact min_le_left _ _)
  · intro h
    unfold build_watchlist
    rw [h]
    simp

/-- C6 witness: at a date with no rows, the watchlist is empty (and within
the default size bound). -/
theorem C6_witness :
    (build_watchlist wlFrame 99 [("f", 1)] ["f"] none {} none).length ≤
        ({} : WatchlistConfig).size ∧
      build_watchlist wlFrame 99 [("f", 1)] ["f"] none {} none = [] :=
  ⟨(C6_watchlist_size_bound wlFrame 99 [("f", 1)] ["f"] none {} none).1,
   (C6_watchlist_size_bound wlFrame 99 [("f", 1)] ["f"] none {} none).2 (by decide)⟩

/-- C7: a new entry carries exactly the configured turnover penalty, a
retained entry carries 0, and each entry's `score` is its raw composite
score minus its own turnover penalty. -/
theorem C7_turnover_penalty_and_adjusted_score (features : Frame) (as_of_date : Int)
    (model_coef : List (String × Rat)) (signal_features : List String)
    (prev_watchlist : Option (List String)) (cfg : WatchlistConfig)
    (regime_multipliers : Option (List (String × Rat))) (e : WatchlistEntry)
    (he : e ∈ build_watchlist features as_of_date model_coef signal_features
      prev_watchlist cfg regime_multipliers) :
    (e.is_new = true → e.turnover_penalty = cfg.turnover_penalty) ∧
      (e.is_new = false → e.turnover_penalty = 0) ∧
      ∃ r ∈ sliceDay features as_of_date,
        rowScore features signal_features model_coef
          (wlMultiplier features as_of_date regime_multipliers) r =
          some (e.score + e.turnover_penalty) := by
  obtain ⟨sr, hsr, rfl⟩ := build_watchlist_mem_structure features as_of_date model_coef
    signal_features prev_watchlist cfg regime_multipliers e he
  unfold wlAnnotated at hsr
  obtain ⟨hmem, hnew, hpen, hadj⟩ := mem_annotateTurnover _ _ _ _ hsr
  obtain ⟨hday, hscore⟩ := mem_scoredDay _ _ _ _ _ _ _ hmem
  refine ⟨?_, ?_, sr.row, hday, ?_⟩
  · intro h
    simp only [toEntry] at h ⊢
    rw [hnew] at h
    rw [hpen, if_pos (by simpa using h)]
  · intro h
    simp only [toEntry] at h ⊢
    rw [hnew] at h
    rw [hpen, if_neg (by simpa using h)]
  · simp only [toEntry]
    rw [hscore, hadj]
    ring_nf

/-- C7 witness: on the one-row fixture the (new) entry has the default
penalty 1/100 and score 99/100 = raw 1 minus penalty. -/
theorem C7_witness :
    wlEntry0 ∈ build_watchlist wlFrame 5 [("f", 1)] ["f"] none {} none ∧
      ((wlEntry0.is_new = true → wlEntry0.turnover_penalty = ({} : WatchlistConfig).turnover_penalty) ∧
        (wlEntry0.is_new = false → wlEntry0.turnover_penalty = 0) ∧
        ∃ r ∈ sliceDay wlFrame 5,
          rowScore wlFrame ["f"] [("f", 1)] (wlMultiplier wlFrame 5 none) r =
            some (wlEntry0.score + wlEntry0.turnover_penalty)) := by
  have heq : build_watchlist wlFrame 5 [("f", 1)] ["f"] none {} none = [wlEntry0] := by
    decide
  have hmem : wlEntry0 ∈ build_watchlist wlFrame 5 [("f", 1)] ["f"] none {} none := by
    rw [heq]
    exact List.mem_singleton.mpr rfl
  exact ⟨hmem,
    C7_turnover_penalty_and_adjusted_score wlFrame 5 [("f", 1)] ["f"] none {} none wlEntry0
      hmem⟩

/-- C5, counterexample.  With `min_retained = 0` and `max_new = 0`, a
supplied previous watchlist whose (empty) ticker set has at least
`min_retained` elements still yields an entry marked new: the rotation
branch requires a *nonempty* previous set (`if prev_set and ...`), so the
unconstrained branch runs and the `max_new` bound is not applied. -/
theorem C5_rotation_counterexample :
    (wlPrevSet (some [])).length ≥ wlCfg0.min_retained ∧
      (build_watchlist wlFrame 5 [("f", 1)] ["f"] (some []) wlCfg0 none).countP
          (fun e => e.is_new) > wlCfg0.max_new := by
  decide

/-- C5, amended: when a previous watchlist is supplied whose ticker set is
*nonempty* and has at least `min_retained` elements, the number of
watchlist entries with `is_new = true` never exceeds `max_new`. -/
theorem C5_rotation_bound (features : Frame) (as_of_date : Int)
    (model_coef : List (String × Rat)) (signal_features : List String)
    (pl : List String) (cfg : WatchlistConfig)
    (regime_multipliers : Option (List (String × Rat)))
    (hne : wlPrevSet (some pl) ≠ [])
    (hcard : (wlPrevSet (some pl)).length ≥ cfg.min_retained) :
    (build_watchlist features as_of_date model_coef signal_features (some pl) cfg
        regime_multipliers).countP (fun e => e.is_new) ≤ cfg.max_new := by
  unfold build_watchlist
  split
  · simp
  · rw [List.countP_map]
    have hcomp : ((fun e => e.is_new) ∘ toEntry features signal_features) =
        (fun sr : ScoredRow => sr.is_new) := by
      funext sr
      simp [toEntry, Function.comp]
    rw [hcomp]
    simp only [wlSelected]
    rw [if_pos ⟨by simpa [List.isEmpty_iff] using hne, hcard⟩]
    set prevSet := wlPrevSet (some pl)
    set sorted := sortDescBy (fun sr => sr.adj)
      (wlAnnotated features as_of_date model_coef signal_features (some pl) cfg
        regime_multipliers) with hsorted
    set retained := (sorted.filter (fun sr => sr.row.ticker ∈ prevSet)).take cfg.min_retained
    set newCandidates := (sorted.filter (fun sr => sr.row.ticker ∉ prevSet)).take cfg.max_new
    calc (List.countP (fun sr => sr.is_new)
            ((sortDescBy (fun sr => sr.adj) (retained ++ newCandidates)).take cfg.size))
        ≤ List.countP (fun sr => sr.is_new)
            (sortDescBy (fun sr => sr.adj) (retained ++ newCandidates)) :=
          (List.take_sublist _ _).countP_le _
      _ = List.countP (fun sr => sr.is_new) (retained ++ newCandidates) :=
          (sortDescBy_perm _ _).countP_eq _
      _ = List.countP (fun sr => sr.is_new) retained
            + List.countP (fun sr => sr.is_new) newCandidates := by
          rw [List.countP_append]
      _ ≤ 0 + cfg.max_new := by
          gcongr
          · apply Nat.le_of_eq
            rw [List.countP_eq_zero]
            intro sr hsr
            have h1 := List.mem_filter.mp ((List.take_subset _ _) hsr)
            have h2 := ((sortDescBy_perm _ _).mem_iff).mp h1.1
            unfold wlAnnotated at h2
            obtain ⟨_, hnew, _, _⟩ := mem_annotateTurnover _ _ _ _ h2
            rw [hnew]
            simpa using h1.2
          · exact le_trans (List.countP_le_length _) (by
              rw [List.length_take]; exact min_le_left _ _)
      _ = cfg.max_new := Nat.zero_add _

/-- C5 witness for the amended bound: a supplied two-ticker previous
watchlist with `min_retained = 2` keeps the new-entry count within
`max_new`. -/
theorem C5_witness :
    wlPrevSet (some ["A", "B"]) ≠ [] ∧
      (wlPrevSet (some ["A", "B"])).length ≥ wlCfgRet.min_retained ∧
      (build_watchlist wlFrame 5 [("f", 1)] ["f"] (some ["A", "B"]) wlCfgRet none).countP
          (fun e => e.is_new) ≤ wlCfgRet.max_new :=
  ⟨by decide, by decide,
   C5_rotation_bound wlFrame 5 [("f", 1)] ["f"] ["A", "B"] wlCfgRet none
     (by decide) (by decide)⟩

/-- C9: no decision-date row ever has a null composite score, so the
`dropna(subset=["_score"])` step removes no row — every decision-date row
reaches the ranking stage (same rows, same order, same count). -/
theorem C9_dropna_unreachable (features : Frame) (as_of_date : Int)
    (signal_features : List String) (model_coef : List (String × Rat))
    (regime_multipliers : Option (List (String × Rat))) :
    (∀ r ∈ sliceDay features as_of_date,
        (rowScore features signal_features model_coef
          (wlMultiplier features as_of_date regime_multipliers) r).isSome = true) ∧
      (scoredDay features (sliceDay features as_of_date) signal_features model_coef
          (wlMultiplier features as_of_date regime_multipliers)).map Prod.fst =
        sliceDay features as_of_date ∧
      (scoredDay features (sliceDay features as_of_date) signal_features model_coef
          (wlMultiplier features as_of_date regime_multipliers)).length =
        (sliceDay features as_of_date).length := by
  refine ⟨fun r _ => rowScore_isSome _ _ _ _ r, scoredDay_map_fst _ _ _ _ _, ?_⟩
  have h := congrArg List.length
    (scoredDay_map_fst features (sliceDay features as_of_date) signal_features model_coef
      (wlMultiplier features as_of_date regime_multipliers))
  simpa using h

/-- C9 witness: on the one-row fixture the score of the day's row is
non-null and the dropna stage keeps the full day slice. -/
theorem C9_witness :
    (rowScore wlFrame ["f"] [("f", 1)] (wlMultiplier wlFrame 5 none) wlRow0).isSome = true ∧
      (scoredDay wlFrame (sliceDay wlFrame 5) ["f"] [("f", 1)]
          (wlMultiplier wlFrame 5 none)).length = (sliceDay wlFrame 5).length :=
  ⟨(C9_dropna_unreachable wlFrame 5 ["f"] [("f", 1)] none).1 wlRow0 (by decide),
   (C9_dropna_unreachable wlFrame 5 ["f"] [("f", 1)] none).2.2⟩

/-- The distinct sorted dates of the walk-forward gate are duplicate-free. -/
theorem wfDates_nodup (features : Frame) : (wfDates features).Nodup := by
  unfold wfDates
  exact ((sortAsc_perm _).nodup_iff).mpr (uniqueFirst_nodup _)

theorem take_sub_take {α : Type} (l : List α) {m n : Nat} (h : m ≤ n) :
    l.take m ⊆ l.take n := by
  intro d hd
  rw [show m = min m n from (min_eq_left h).symm, ← List.take_take] at hd
  exact (List.take_subset _ _) hd

theorem take_drop_sub_take {α : Type} (l : List α) {a b n : Nat} (h : a + b ≤ n) :
    (l.drop a).take b ⊆ l.take n := by
  intro d hd
  rw [List.take_drop] at hd
  exact take_sub_take l h ((List.drop_subset _ _) hd)

/-- C10: when the distinct-date count `D` is not consumed exactly by the
`n_splits + 1` equal blocks, every fold's training and test dates lie in
the first `(n_splits + 1) * (D / (n_splits + 1))` sorted dates, the
trailing dates belong to no fold's training or test set, and exactly
`D % (n_splits + 1)` dates are left over. -/
theorem C10_walk_forward_drops_latest_dates (features : Frame) (n_splits k : Nat)
    (hk : k < n_splits) :
    wfTrainDates features n_splits k ⊆
        (wfDates features).take
          ((n_splits + 1) * ((wfDates features).length / (n_splits + 1))) ∧
      wfTestDates features n_splits k ⊆
        (wfDates features).take
          ((n_splits + 1) * ((wfDates features).length / (n_splits + 1))) ∧
      (∀ d ∈ (wfDates features).drop
          ((n_splits + 1) * ((wfDates features).length / (n_splits + 1))),
        d ∉ wfTrainDates features n_splits k ∧ d ∉ wfTestDates features n_splits k) ∧
      ((wfDates features).drop
          ((n_splits + 1) * ((wfDates features).length / (n_splits + 1)))).length =
        (wfDates features).length % (n_splits + 1) := by
  have hmB : (k + 1) * ((wfDates features).length / (n_splits + 1)) ≤
      (n_splits + 1) * ((wfDates features).length / (n_splits + 1)) :=
    Nat.mul_le_mul_right _ (by omega)
  have hmB2 : (k + 1) * ((wfDates features).length / (n_splits + 1)) +
      (wfDates features).length / (n_splits + 1) ≤
      (n_splits + 1) * ((wfDates features).length / (n_splits + 1)) := by
    have h2 : (k + 2) * ((wfDates features).length / (n_splits + 1)) ≤
        (n_splits + 1) * ((wfDates features).length / (n_splits + 1)) :=
      Nat.mul_le_mul_right _ (by omega)
    calc (k + 1) * ((wfDates features).length / (n_splits + 1)) +
          (wfDates features).length / (n_splits + 1)
        = (k + 2) * ((wfDates features).length / (n_splits + 1)) := by ring
      _ ≤ (n_splits + 1) * ((wfDates features).length / (n_splits + 1)) := h2
  have htrain : wfTrainDates features n_splits k ⊆
      (wfDates features).take
        ((n_splits + 1) * ((wfDates features).length / (n_splits + 1))) :=
    take_sub_take (wfDates features) hmB
  have htest : wfTestDates features n_splits k ⊆
      (wfDates features).take
        ((n_splits + 1) * ((wfDates features).length / (n_splits + 1))) :=
    take_drop_sub_take (wfDates features) hmB2
  have hdisj := List.disjoint_take_drop
    (m := (n_splits + 1) * ((wfDates features).length / (n_splits + 1)))
    (n := (n_splits + 1) * ((wfDates features).length / (n_splits + 1)))
    (wfDates_nodup features) (le_refl _)
  refine ⟨htrain, htest, ?_, ?_⟩
  · intro d hd
    constructor
    · intro hmem
      exact hdisj (htrain hmem) hd
    · intro hmem
      exact hdisj (htest hmem) hd
  · rw [List.length_drop]
    have h1 := Nat.div_add_mod (wfDates features).length (n_splits + 1)
    omega

/-- C10 witness: 7 distinct dates, 3 splits, fold 0 — the last 3 dates are
outside every fold. -/
theorem C10_witness :
    0 < 3 ∧
      (wfTrainDates wfFrame7 3 0 ⊆
          (wfDates wfFrame7).take ((3 + 1) * ((wfDates wfFrame7).length / (3 + 1))) ∧
        wfTestDates wfFrame7 3 0 ⊆
          (wfDates wfFrame7).take ((3 + 1) * ((wfDates wfFrame7).length / (3 + 1))) ∧
        (∀ d ∈ (wfDates wfFrame7).drop ((3 + 1) * ((wfDates wfFrame7).length / (3 + 1))),
          d ∉ wfTrainDates wfFrame7 3 0 ∧ d ∉ wfTestDates wfFrame7 3 0) ∧
        ((wfDates wfFrame7).drop ((3 + 1) * ((wfDates wfFrame7).length / (3 + 1)))).length =
          (wfDates wfFrame7).length % (3 + 1)) :=
  ⟨by decide, C10_walk_forward_drops_latest_dates wfFrame7 3 0 (by decide)⟩

/-- C8: for each threshold-parameterised gate, with the data, model
configuration, and split parameters fixed, passing at the higher threshold
implies passing at the lower one (the computed statistic does not depend
on the threshold, and passing is the strict comparison `stat > threshold`). -/
theorem C8_gate_threshold_antitone (fit : Fitter) (choice : TickerChoice)
    (features : Frame) (names : List String) (cfg : ModelConfig) (n_splits : Nat)
    (test_frac : Rat) (n_windows : Nat) (t1 t2 : Rat) (h : t1 ≤ t2) :
    ((gate_walk_forward fit features names cfg t2 n_splits).passed = true →
        (gate_walk_forward fit features names cfg t1 n_splits).passed = true) ∧
      ((gate_ticker_split_cv fit choice features names cfg t2 test_frac).passed = true →
        (gate_ticker_split_cv fit choice features names cfg t1 test_frac).passed = true) ∧
      ((gate_param_stability fit features names cfg t2 n_windows).passed = true →
        (gate_param_stability fit features names cfg t1 n_windows).passed = true) := by
  refine ⟨?_, ?_, ?_⟩
  · intro hp
    by_cases hins : (wfDates features).length < n_splits * 2
    · simp [gate_walk_forward, hins] at hp
    · simp only [gate_walk_forward, if_neg hins] at hp ⊢
      simp only [decide_eq_true_eq] at hp ⊢
      linarith
  · intro hp
    simp only [gate_ticker_split_cv] at hp ⊢
    split at hp
    · simp at hp
    · rename_i hcond
      rw [if_neg hcond]
      split at hp
      · simp at hp
      · simp only [decide_eq_true_eq] at hp ⊢
        linarith
  · intro hp
    simp only [gate_param_stability] at hp ⊢
    split at hp
    · simp at hp
    · rename_i hcond
      rw [if_neg hcond]
      split at hp
      · simp at hp
      · rename_i hfew
        rw [if_neg hfew]
        simp only [decide_eq_true_eq] at hp ⊢
        linarith

/-- C8 witness: on the empty frame each gate fails at threshold 1/2, making
the implications hold (and `0 ≤ 1/2` discharges the only hypothesis). -/
theorem C8_witness :
    (0 : Rat) ≤ 1/2 ∧
      (((gate_walk_forward constFit emptyFrame ["f"] {} (1/2) 3).passed = true →
          (gate_walk_forward constFit emptyFrame ["f"] {} 0 3).passed = true) ∧
        ((gate_ticker_split_cv constFit takeChoice emptyFrame ["f"] {} (1/2) (1/5)).passed = true →
          (gate_ticker_split_cv constFit takeChoice emptyFrame ["f"] {} 0 (1/5)).passed = true) ∧
        ((gate_param_stability constFit emptyFrame ["f"] {} (1/2) 3).passed = true →
          (gate_param_stability constFit emptyFrame ["f"] {} 0 3).passed = true)) :=
  ⟨by decide,
   C8_gate_threshold_antitone constFit takeChoice emptyFrame ["f"] {} 3 (1/5) 3 0 (1/2)
     (by decide)⟩

/-- C4: when the walk-forward gate's reported IC (0.0 when null) is below
the confidence threshold, a confidence rejection reason is in the result
and the aggregate fails — regardless of what every gate reported; and the
aggregate passes exactly when the rejection-reason list is empty. -/
theorem C4_confidence_check_and_aggregation (fit : Fitter) (choice : TickerChoice)
    (features : Frame) (names : List String) (as_of : Int) (cfg : ModelConfig)
    (gcfg : GateCfg) (wf : GateResult)
    (hwf : (run_all_gates fit choice features names as_of cfg gcfg).gates.lookup
      "walk_forward" = some wf) :
    (wf.details_ic.getD 0 < gcfg.confidence_threshold →
        Reason.confidence (wf.details_ic.getD 0) gcfg.confidence_threshold ∈
          (run_all_gates fit choice features names as_of cfg gcfg).rejection_reasons ∧
        (run_all_gates fit choice features names as_of cfg gcfg).all_passed = false) ∧
      ((run_all_gates fit choice features names as_of cfg gcfg).all_passed = true ↔
        (run_all_gates fit choice features names as_of cfg gcfg).rejection_reasons = []) := by
  have hwf2 : wf = gate_walk_forward fit features names cfg gcfg.wf_ic_threshold := by
    simp [run_all_gates, gateList, List.lookup] at hwf
    exact hwf.symm
  subst hwf2
  constructor
  · intro hlt
    simp only [run_all_gates, runReasons]
    rw [if_pos hlt]
    constructor
    · exact (mem_uniqueFirst _ _).mpr
        (List.mem_append_right _ (List.mem_singleton.mpr rfl))
    · simp [List.isEmpty_iff]
  · simp only [run_all_gates]
    simp [List.isEmpty_iff, uniqueFirst_eq_nil]

/-- C4 witness: on the empty frame the walk-forward IC is null, the
confidence check compares 0.0 against 1/200 and rejects, and the aggregate
fails with a non-empty reason list. -/
theorem C4_witness :
    (run_all_gates constFit takeChoice emptyFrame ["f"] 0 {} {}).gates.lookup
        "walk_forward" = some wfGateE ∧
      (wfGateE.details_ic.getD 0 < ({} : GateCfg).confidence_threshold →
          Reason.confidence (wfGateE.details_ic.getD 0) ({} : GateCfg).confidence_threshold ∈
            (run_all_gates constFit takeChoice emptyFrame ["f"] 0 {} {}).rejection_reasons ∧
          (run_all_gates constFit takeChoice emptyFrame ["f"] 0 {} {}).all_passed = false) ∧
      ((run_all_gates constFit takeChoice emptyFrame ["f"] 0 {} {}).all_passed = true ↔
        (run_all_gates constFit takeChoice emptyFrame ["f"] 0 {} {}).rejection_reasons = []) :=
  ⟨by decide,
   C4_confidence_check_and_aggregation constFit takeChoice emptyFrame ["f"] 0 {} {} wfGateE
     (by decide)⟩

end IngaQuant
